import Mathlib

/-! Verification development for the dns64perf++ entry point (src/main.cpp).
The command-line validation chain, the subnet-base masking, the worker start
deadlines, the CPU-core assignment and the orchestration of worker threads,
aggregation and reporting are embedded as executable Lean definitions below,
and the stated properties of the program are proved about them. Machine
integers are modelled as Nat with explicit reductions modulo powers of two
where C unsigned arithmetic wraps; C undefined behaviour (modulo by zero) is
modelled by a distinguished result. -/

/-- Diagnostic classes of the validation chain in main (src/main.cpp lines
49-135). Each corresponds to one early-return branch. -/
inductive ValError where
  | usage
  | badServer
  | badPort
  | badSubnet
  | badNetmask
  | badNumReq
  | tooManyReq
  | badBurst
  | badThread
  | notDivisible
  | badNumPort
  | badDelay
  | badTimeout

deriving instance DecidableEq, Fintype for ValError

/-- The exact diagnostic string each early-return branch writes to standard
error (src/main.cpp lines 50-131; the source strings are reproduced verbatim,
including their typos). -/
def ValError.msg : ValError → String
  | .usage => "Usage: dns64perf++ <server> <port> <subnet> <number of requests> <burst size> <number of threads> <number of ports per thread> <delay between bursts in ns> <timeout in s>"
  | .badServer => "Bad server adddress."
  | .badPort => "Bad port."
  | .badSubnet => "Bad subnet."
  | .badNetmask => "Bad netmask."
  | .badNumReq => "Bad number of requests, must be between 0 and 2^32."
  | .tooManyReq => "The number of requests is higher than the avaliable IPs in the subnet."
  | .badBurst => "Bad burst size, must be between 0 and 2^32."
  | .badThread => "Bad number of threads size, must be between 0 and 2^32."
  | .notDivisible => "Number of requests must be divisble by (number of threads * burst size)"
  | .badNumPort => "Bad number of ports per thread, must be between 0 and 2^16."
  | .badDelay => "Bad delay between bursts."
  | .badTimeout => "Bad timeout."

/-- Abstraction of the command line after lexing: for each positional argument
the outcome of its inet_pton / sscanf parse (an `Ok` flag, plus the parsed
machine value where the later code uses it). Parsed values are the machine
values sscanf stored: temp0-temp3 and netmask are uint8 (< 256), numReq,
numBurst and numThread are uint32, port and numPort uint16, burstDelay
uint64; claims carry these bounds as hypotheses where they matter. -/
structure Input where
  argc : Nat
  serverOk : Bool
  portOk : Bool
  port : Nat
  subnetOk : Bool
  temp0 : Nat
  temp1 : Nat
  temp2 : Nat
  temp3 : Nat
  netmask : Nat
  numReqOk : Bool
  numReq : Nat
  numBurstOk : Bool
  numBurst : Nat
  numThreadOk : Bool
  numThread : Nat
  numPortOk : Bool
  numPort : Nat
  burstDelayOk : Bool
  burstDelay : Nat
  timeoutOk : Bool

deriving instance DecidableEq for Input

/-- The 32-bit word (temp[0] << 24) | (temp[1] << 16) | (temp[2] << 8) |
temp[3] from src/main.cpp line 84. -/
def subnetWord (t0 t1 t2 t3 : Nat) : Nat :=
  t0 <<< 24 ||| t1 <<< 16 ||| t2 <<< 8 ||| t3

/-- The value stored in ip by src/main.cpp lines 84-85: the subnet word
ANDed with ~(((uint64_t)1 << (32 - netmask)) - 1). Complement on uint64 is
(2^64 - 1) - x; the assignment to the uint32 variable ip truncates modulo
2^32. The intermediate int-to-uint64 sign extension of the word cannot
change the low 32 bits of the result, so it is not reproduced. -/
def subnetBase (t0 t1 t2 t3 netmask : Nat) : Nat :=
  (subnetWord t0 t1 t2 t3 &&& (2 ^ 64 - 1 - (2 ^ (32 - netmask) - 1))) % 2 ^ 32

/-- The validated configuration main hands to each DnsTester constructor
(src/main.cpp lines 142-146), minus the timeval timeout (floating point,
unused by the properties below). -/
structure Config where
  port : Nat
  ip : Nat
  netmask : Nat
  numReq : Nat
  numBurst : Nat
  numThread : Nat
  numPort : Nat
  burstDelay : Nat

deriving instance DecidableEq for Config

/-- Result of the validation chain: an early-return diagnostic, undefined
behaviour (the modulo by zero in the sanity check, reached when
num_thread * num_burst wraps to 0 as uint32), or the accepted
configuration. -/
inductive ValResult where
  | err (e : ValError)
  | undef
  | ok (cfg : Config)

deriving instance DecidableEq for ValResult

/-- The divisor of the sanity check at src/main.cpp line 110:
num_thread * num_burst computed in uint32 arithmetic, hence reduced
modulo 2^32. -/
def sanityDivisor (inp : Input) : Nat :=
  inp.numThread * inp.numBurst % 2 ^ 32

/-- The validation chain of main, src/main.cpp lines 49-135, in source
order: usage line when argc < 10, server address, port, subnet, netmask
bound, number of requests, subnet capacity, burst size, thread count, the
divisibility sanity check (undefined when its uint32 divisor is zero),
ports per thread, burst delay, timeout. -/
def validate (inp : Input) : ValResult :=
  if inp.argc < 10 then .err .usage
  else if !inp.serverOk then .err .badServer
  else if !inp.portOk then .err .badPort
  else if !inp.subnetOk then .err .badSubnet
  else if inp.netmask > 32 then .err .badNetmask
  else if !inp.numReqOk then .err .badNumReq
  else if inp.numReq > 2 ^ (32 - inp.netmask) then .err .tooManyReq
  else if !inp.numBurstOk then .err .badBurst
  else if !inp.numThreadOk then .err .badThread
  else if sanityDivisor inp = 0 then .undef
  else if inp.numReq % sanityDivisor inp ≠ 0 then .err .notDivisible
  else if !inp.numPortOk then .err .badNumPort
  else if !inp.burstDelayOk then .err .badDelay
  else if !inp.timeoutOk then .err .badTimeout
  else .ok
    { port := inp.port
      ip := subnetBase inp.temp0 inp.temp1 inp.temp2 inp.temp3 inp.netmask
      netmask := inp.netmask
      numReq := inp.numReq
      numBurst := inp.numBurst
      numThread := inp.numThread
      numPort := inp.numPort
      burstDelay := inp.burstDelay }

/-- Conjunction of the validation conditions checked before the subnet
capacity comparison at src/main.cpp line 92. -/
def reachesCapacityCheck (inp : Input) : Prop :=
  ¬ inp.argc < 10 ∧ inp.serverOk = true ∧ inp.portOk = true ∧
  inp.subnetOk = true ∧ inp.netmask ≤ 32 ∧ inp.numReqOk = true

instance : DecidablePred reachesCapacityCheck := fun _ =>
  by unfold reachesCapacityCheck; infer_instance

/-- Conjunction of the validation conditions checked before the divisibility
sanity check at src/main.cpp line 110. -/
def reachesSanityCheck (inp : Input) : Prop :=
  reachesCapacityCheck inp ∧ inp.numReq ≤ 2 ^ (32 - inp.netmask) ∧
  inp.numBurstOk = true ∧ inp.numThreadOk = true

instance : DecidablePred reachesSanityCheck := fun _ =>
  by unfold reachesSanityCheck; infer_instance

/-- CPU core the loop at src/main.cpp line 156 assigns to worker thread i:
CPU_SET(num_thread + i, &cpuset), where num_thread and i are uint32 values,
so the sum wraps modulo 2^32. -/
def workerCore (numThread i : Nat) : Nat :=
  (numThread + i) % 2 ^ 32

/-- Start deadline main passes to the i-th DnsTester (src/main.cpp line 145):
reference_time + nanoseconds(burst_delay / num_thread) * i, on an idealized
nanosecond clock (time instants as Nat); / is the C integer division. -/
def workerStartDeadline (referenceTime burstDelay numThread i : Nat) : Nat :=
  referenceTime + burstDelay / numThread * i

/-- Deadlines of all workers, in construction order, as produced by the loop
at src/main.cpp lines 141-147 from the single reference_time computed at
line 139 before the loop. -/
def testerDeadlines (referenceTime burstDelay numThread : Nat) : List Nat :=
  (List.range numThread).map (workerStartDeadline referenceTime burstDelay numThread)

/-- Observable steps of the orchestration code in the try block of main,
src/main.cpp lines 148-168. The affinity step carries the return code of
pthread_setaffinity_np; mkAggregator records which workers' results the
DnsTesterAggregator constructor reads. -/
inductive Step where
  | spawn (i : Nat)
  | setName (i : Nat)
  | affinity (i : Nat) (core : Nat) (rc : Int)
  | join (i : Nat)
  | mkAggregator (workers : List Nat)
  | display
  | writeCsv (path : String)

deriving instance DecidableEq for Step

/-- Line printed to standard error by the affinity branch, src/main.cpp
lines 158-161: the error fprintf when the return code is nonzero, the
pinned-confirmation fprintf otherwise. -/
def affinityStderr (i core : Nat) (rc : Int) : String :=
  if rc ≠ 0 then "Error calling pthread_setaffinity_np: " ++ toString rc ++ ".\n"
  else "Receiver thread " ++ toString i ++ " was pinned to CPU core " ++ toString core ++ ".\n"

/-- Standard-error output of one orchestration step: only the affinity
branch prints. -/
def stepStderr : Step → List String
  | .affinity i core rc => [affinityStderr i core rc]
  | _ => []

/-- First loop of the try block (src/main.cpp lines 149-162): for each
worker index, spawn the thread running start(), name it, then best-effort
pin it to core num_thread + i; rc gives pthread_setaffinity_np's return
code for each index. -/
def spawnPhase (n : Nat) (rc : Nat → Int) : List Step :=
  (List.range n).flatMap fun i => [.spawn i, .setName i, .affinity i (workerCore n i) (rc i)]

/-- Second loop of the try block (src/main.cpp lines 163-165): join every
worker thread. -/
def joinPhase (n : Nat) : List Step :=
  (List.range n).map .join

/-- Tail of the try block (src/main.cpp lines 166-168): construct the
aggregator over all workers, display the summary, write the CSV. -/
def reportPhase (n : Nat) : List Step :=
  [.mkAggregator (List.range n), .display, .writeCsv ("dns64perf.csv")]

/-- Full step sequence of the try block when no exception interrupts it. -/
def trySteps (n : Nat) (rc : Nat → Int) : List Step :=
  spawnPhase n rc ++ joinPhase n ++ reportPhase n

/-- Outcome of the try/catch at src/main.cpp lines 148-171: the steps that
actually ran, and the message the catch block printed if an exception was
thrown. -/
structure CaughtRun where
  performed : List Step
  caught : Option String

deriving instance DecidableEq for CaughtRun

/-- Semantics of the try/catch: with no exception every step runs; an
exception raised at step index k runs exactly the first k steps, then the
catch block prints the exception's what() message (src/main.cpp line 170)
and falls through to return 0. -/
def catchRun (steps : List Step) (failAt : Option Nat) (msg : String) : CaughtRun :=
  match failAt with
  | none => { performed := steps, caught := none }
  | some k => { performed := steps.take k, caught := some msg }

/-- Lines the catch block adds to standard error. -/
def caughtLines : Option String → List String
  | none => []
  | some m => [m]

/-- Observable outcome of one execution of main: standard-error lines, the
value returned from main, how many DnsTester objects were constructed, and
the orchestration steps that ran. -/
structure MainOutcome where
  stderrLines : List String
  exitCode : Int
  workersConstructed : Nat
  steps : List Step

deriving instance DecidableEq for MainOutcome

/-- End-to-end model of main: a failed validation prints its diagnostic and
returns -1 with no DnsTester constructed and no orchestration step run
(src/main.cpp lines 49-135); a divisor of zero in the sanity check is
undefined behaviour (none); otherwise all num_thread workers are
constructed (lines 141-147) and the try block runs under tryCatch, with
main returning 0 (line 172) even when an exception was caught. -/
def mainModel (inp : Input) (rc : Nat → Int) (failAt : Option Nat) (excMsg : String) :
    Option MainOutcome :=
  match validate inp with
  | .err e => some { stderrLines := [e.msg], exitCode := -1, workersConstructed := 0, steps := [] }
  | .undef => none
  | .ok cfg =>
    let r := catchRun (trySteps cfg.numThread rc) failAt excMsg
    some { stderrLines := r.performed.flatMap stepStderr ++ caughtLines r.caught
           exitCode := 0
           workersConstructed := cfg.numThread
           steps := r.performed }

/-- Replaces the affinity return code by 0, to compare orchestration
traces up to pinning success. -/
def stripAffinity : Step → Step
  | .affinity i core _ => .affinity i core 0
  | s => s

/-- A fully valid input: server 2001:db8::1 port 53, subnet 192.0.2.0/24,
256 requests, burst size 4, 2 threads, 1 port per thread, 1000000 ns burst
delay, all parses successful. Used by concrete witnesses. -/
def goodInput : Input :=
  { argc := 10, serverOk := true, portOk := true, port := 53, subnetOk := true
    temp0 := 192, temp1 := 0, temp2 := 2, temp3 := 0, netmask := 24
    numReqOk := true, numReq := 256, numBurstOk := true, numBurst := 4
    numThreadOk := true, numThread := 2, numPortOk := true, numPort := 1
    burstDelayOk := true, burstDelay := 1000000, timeoutOk := true }

/-- The configuration main builds from goodInput. -/
def goodCfg : Config :=
  { port := 53, ip := subnetBase 192 0 2 0 24, netmask := 24, numReq := 256
    numBurst := 4, numThread := 2, numPort := 1, burstDelay := 1000000 }

/-- goodInput with a request count (5) not divisible by threads * burst
(2 * 4 = 8). -/
def badDivInput : Input :=
  { goodInput with numReq := 5 }

/-- goodInput with burst size parsed as 0: the sanity check divides by
zero. -/
def zeroBurstInput : Input :=
  { goodInput with numBurst := 0 }

/-- Input on which thread count 65536 times burst size 65537 wraps to
65536 as uint32: the sanity check uses the wrapped divisor, which divides
the request count 65536 although the mathematical product does not. -/
def overflowInput : Input :=
  { goodInput with netmask := 0, temp0 := 0, temp1 := 0, temp2 := 0, temp3 := 0
                   numReq := 65536, numBurst := 65537, numThread := 65536 }

/-- The configuration main builds from overflowInput. -/
def overflowCfg : Config :=
  { port := 53, ip := subnetBase 0 0 0 0 0, netmask := 0, numReq := 65536
    numBurst := 65537, numThread := 65536, numPort := 1, burstDelay := 1000000 }

/-- Concrete affinity return codes for witnesses: pinning fails with code 22
on every thread. -/
def failRc : Nat → Int := fun _ => 22

/-- Concrete affinity return codes for witnesses: pinning succeeds on every
thread. -/
def okRc : Nat → Int := fun _ => 0

/-- An input with argc below 10, triggering the usage branch; used by
concrete witnesses. -/
def shortArgvInput : Input :=
  { goodInput with argc := 5 }

/-- An accepted input whose thread count 2^31+1 exceeds 2^31: for the last
worker indices the uint32 sum num_thread + i wraps past 2^32. -/
def bigThreadInput : Input :=
  { goodInput with netmask := 0, temp0 := 0, temp1 := 0, temp2 := 0, temp3 := 0
                   numReq := 2147483649, numBurst := 1, numThread := 2147483649 }

/-- The configuration main builds from bigThreadInput. -/
def bigThreadCfg : Config :=
  { port := 53, ip := subnetBase 0 0 0 0 0, netmask := 0, numReq := 2147483649
    numBurst := 1, numThread := 2147483649, numPort := 1, burstDelay := 1000000 }

/-- Bitwise AND of a 32-bit value with the uint64 complement of the low-n-bits
mask clears exactly the low n bits, i.e. rounds down to a multiple of 2^n. -/
lemma land_mask_clears_low (x n : Nat) (hx : x < 2 ^ 32) (hn : n ≤ 32) :
    x &&& (2 ^ 64 - 1 - (2 ^ n - 1)) = x / 2 ^ n * 2 ^ n := by
  have hpos : 0 < (2 : Nat) ^ n := Nat.two_pow_pos n
  have h1 : (2 : Nat) ^ 64 - 1 - (2 ^ n - 1) = 2 ^ 64 - 2 ^ n := by omega
  have h2 : (2 : Nat) ^ 64 - 2 ^ n = (2 ^ (64 - n) - 1) <<< n := by
    rw [Nat.shiftLeft_eq, Nat.sub_mul, one_mul, ← pow_add]
    have h64 : 64 - n + n = 64 := by omega
    rw [h64]
  have h3 : x / 2 ^ n * 2 ^ n = (x >>> n) <<< n := by
    rw [Nat.shiftRight_eq_div_pow, Nat.shiftLeft_eq]
  rw [h1, h2, h3]
  apply Nat.eq_of_testBit_eq
  intro i
  rw [Nat.testBit_and, Nat.testBit_shiftLeft, Nat.testBit_shiftLeft, Nat.testBit_shiftRight,
    Nat.testBit_two_pow_sub_one]
  by_cases hin : n ≤ i
  · have hni : n + (i - n) = i := by omega
    rw [hni]
    by_cases hi64 : i < 64
    · have hlt : i - n < 64 - n := by omega
      simp [hin, hlt, ge_iff_le]
    · have hxb : x.testBit i = false :=
        Nat.testBit_lt_two_pow
          (lt_of_lt_of_le hx (Nat.pow_le_pow_right (by norm_num) (by omega)))
      simp [hxb]
  · simp [hin, ge_iff_le]

/-- The subnet word fits in 32 bits when its four bytes are bytes. -/
lemma subnetWord_lt (t0 t1 t2 t3 : Nat) (h0 : t0 < 256) (h1 : t1 < 256)
    (h2 : t2 < 256) (h3 : t3 < 256) : subnetWord t0 t1 t2 t3 < 2 ^ 32 := by
  have b0 : t0 <<< 24 < 2 ^ 32 := by
    rw [Nat.shiftLeft_eq]
    calc t0 * 2 ^ 24 ≤ 255 * 2 ^ 24 := Nat.mul_le_mul_right _ (by omega)
      _ < 2 ^ 32 := by norm_num
  have b1 : t1 <<< 16 < 2 ^ 32 := by
    rw [Nat.shiftLeft_eq]
    calc t1 * 2 ^ 16 ≤ 255 * 2 ^ 16 := Nat.mul_le_mul_right _ (by omega)
      _ < 2 ^ 32 := by norm_num
  have b2 : t2 <<< 8 < 2 ^ 32 := by
    rw [Nat.shiftLeft_eq]
    calc t2 * 2 ^ 8 ≤ 255 * 2 ^ 8 := Nat.mul_le_mul_right _ (by omega)
      _ < 2 ^ 32 := by norm_num
  have b3 : t3 < 2 ^ 32 := by omega
  exact Nat.or_lt_two_pow (Nat.or_lt_two_pow (Nat.or_lt_two_pow b0 b1) b2) b3

/-- Length of a flatMap whose body always yields three steps. -/
lemma flatMap_three_length (l : List Nat) (f g h : Nat → Step) :
    (l.flatMap fun i => [f i, g i, h i]).length = 3 * l.length := by
  induction l with
  | nil => rfl
  | cons a t ih =>
    simp only [List.flatMap_cons, List.length_append, List.length_cons, ih, List.length_nil]
    omega

lemma spawnPhase_length (n : Nat) (rc : Nat → Int) : (spawnPhase n rc).length = 3 * n := by
  unfold spawnPhase
  rw [flatMap_three_length, List.length_range]

lemma joinPhase_length (n : Nat) : (joinPhase n).length = n := by
  unfold joinPhase
  rw [List.length_map, List.length_range]

/-- Every step before the report phase is a per-worker step: never the
aggregator construction, the display or the CSV write. -/
lemma earlySteps_shape (n : Nat) (rc : Nat → Int) (s : Step)
    (hs : s ∈ spawnPhase n rc ++ joinPhase n) :
    (∀ w, s ≠ Step.mkAggregator w) ∧ s ≠ Step.display ∧ ∀ p, s ≠ Step.writeCsv p := by
  rcases List.mem_append.mp hs with h | h
  · obtain ⟨i, hi, hmem⟩ := List.mem_flatMap.mp h
    simp only [List.mem_cons, List.not_mem_nil, or_false] at hmem
    rcases hmem with rfl | rfl | rfl <;> refine ⟨fun w => ?_, ?_, fun p => ?_⟩ <;> simp
  · obtain ⟨i, hi, rfl⟩ := List.mem_map.mp h
    refine ⟨fun w => ?_, ?_, fun p => ?_⟩ <;> simp

lemma flatMap_strip (n : Nat) (rc : Nat → Int) (l : List Nat) :
    ((l.flatMap fun i =>
        [Step.spawn i, Step.setName i, Step.affinity i (workerCore n i) (rc i)]).map
      stripAffinity)
      = l.flatMap fun i =>
          [Step.spawn i, Step.setName i, Step.affinity i (workerCore n i) 0] := by
  induction l with
  | nil => rfl
  | cons a t ih =>
    simp only [List.flatMap_cons, List.map_append, ih, List.map_cons, List.map_nil,
      stripAffinity]

/-- The orchestration trace does not depend on the affinity return codes,
up to the recorded codes themselves. -/
lemma trySteps_strip (n : Nat) (rc1 rc2 : Nat → Int) :
    (trySteps n rc1).map stripAffinity = (trySteps n rc2).map stripAffinity := by
  unfold trySteps spawnPhase
  rw [List.map_append, List.map_append, List.map_append, List.map_append,
    flatMap_strip, flatMap_strip]

lemma mem_spawnPhase_spawn (n : Nat) (rc : Nat → Int) (i : Nat) (hi : i < n) :
    Step.spawn i ∈ spawnPhase n rc :=
  List.mem_flatMap.mpr ⟨i, List.mem_range.mpr hi, by simp⟩

lemma mem_spawnPhase_affinity (n : Nat) (rc : Nat → Int) (i : Nat) (hi : i < n) :
    Step.affinity i (workerCore n i) (rc i) ∈ spawnPhase n rc :=
  List.mem_flatMap.mpr ⟨i, List.mem_range.mpr hi, by simp⟩

lemma mem_joinPhase (n : Nat) (i : Nat) (hi : i < n) : Step.join i ∈ joinPhase n :=
  List.mem_map.mpr ⟨i, List.mem_range.mpr hi, rfl⟩

/-- C1: for every thread count n >= 1 and worker index i < n, the i-th
constructed worker's anchored start deadline is the single shared reference
instant plus i times the inter-burst delay divided (integer division) by the
thread count; in particular for 4 threads and a 1,000,000 ns delay, worker
j's deadline is the reference instant plus j * 250,000 ns. All deadlines in
testerDeadlines are derived from the one reference instant passed to it. -/
theorem worker_start_deadline_formula (referenceTime burstDelay numThread i : Nat)
    (hn : 1 ≤ numThread) (hi : i < numThread) :
    (testerDeadlines referenceTime burstDelay numThread)[i]? =
      some (referenceTime + i * (burstDelay / numThread))
    ∧ (∀ j, j < 4 → (testerDeadlines referenceTime 1000000 4)[j]? =
        some (referenceTime + j * 250000)) := by
  constructor
  · unfold testerDeadlines
    rw [List.getElem?_map, List.getElem?_range hi]
    simp only [Option.map_some', Option.some.injEq, workerStartDeadline]
    rw [Nat.mul_comm]
  · intro j hj
    unfold testerDeadlines
    rw [List.getElem?_map, List.getElem?_range hj]
    simp only [Option.map_some', Option.some.injEq, workerStartDeadline]
    omega

/-- Witness for C1: with reference instant 0, delay 1,000,000 ns and 4
threads, worker 2 starts at 2 * 250,000 ns and worker 3 at 750,000 ns. -/
theorem worker_start_deadline_formula_witness :
    (testerDeadlines 0 1000000 4)[2]? = some (0 + 2 * (1000000 / 4))
    ∧ (testerDeadlines 0 1000000 4)[3]? = some (0 + 3 * 250000) :=
  ⟨(worker_start_deadline_formula 0 1000000 4 2 (by decide) (by decide)).1,
   (worker_start_deadline_formula 0 1000000 4 2 (by decide) (by decide)).2 3 (by decide)⟩

set_option maxRecDepth 40000 in
/-- C2: whenever the validation chain fails, main prints exactly that
branch's diagnostic to standard error and returns -1 (nonzero) with no
DnsTester constructed and no orchestration step run; the diagnostics are
nonempty and pairwise distinct, so each failure class has its own specific
message. -/
theorem validation_failure_fails_fast (inp : Input) (e : ValError) (rc : Nat → Int)
    (failAt : Option Nat) (excMsg : String) (h : validate inp = .err e) :
    mainModel inp rc failAt excMsg =
      some { stderrLines := [e.msg], exitCode := -1, workersConstructed := 0, steps := [] }
    ∧ (-1 : Int) ≠ 0
    ∧ e.msg ≠ ""
    ∧ Function.Injective ValError.msg := by
  refine ⟨?_, by decide, ?_, by decide⟩
  · simp [mainModel, h]
  · cases e <;> decide

/-- Witness for C2: an argc of 5 triggers the usage diagnostic, exit code
-1, zero workers constructed and an empty step trace. -/
theorem validation_failure_fails_fast_witness :
    mainModel shortArgvInput okRc none ("") =
      some { stderrLines := [ValError.msg ValError.usage], exitCode := -1
             workersConstructed := 0, steps := [] }
    ∧ ValError.msg ValError.usage ≠ "" :=
  ⟨(validation_failure_fails_fast shortArgvInput ValError.usage okRc none ("") (by rfl)).1,
   (validation_failure_fails_fast shortArgvInput ValError.usage okRc none ("") (by rfl)).2.2.1⟩

/-- C3: if an exception is raised at any point up to and including the
aggregator construction (step index k <= 4n), the catch block surfaces the
exception's message, and neither the summary display nor the CSV write is
among the performed steps; for a validated configuration the caught message
appears on main's standard error and main's step trace is the truncated
prefix. -/
theorem worker_error_aborts_report (n : Nat) (rc : Nat → Int) (k : Nat) (excMsg : String)
    (hk : k ≤ 4 * n) :
    (catchRun (trySteps n rc) (some k) excMsg).caught = some excMsg
    ∧ Step.display ∉ (catchRun (trySteps n rc) (some k) excMsg).performed
    ∧ (∀ p, Step.writeCsv p ∉ (catchRun (trySteps n rc) (some k) excMsg).performed)
    ∧ (∀ inp cfg, validate inp = .ok cfg → cfg.numThread = n →
        mainModel inp rc (some k) excMsg =
          some { stderrLines := ((trySteps n rc).take k).flatMap stepStderr ++ [excMsg]
                 exitCode := 0
                 workersConstructed := n
                 steps := (trySteps n rc).take k }) := by
  have hperf : (catchRun (trySteps n rc) (some k) excMsg).performed =
      (trySteps n rc).take k := rfl
  have hlen : (spawnPhase n rc ++ joinPhase n).length = 4 * n := by
    rw [List.length_append, spawnPhase_length, joinPhase_length]
    omega
  have htake : (trySteps n rc).take k = (spawnPhase n rc ++ joinPhase n).take k := by
    unfold trySteps
    exact List.take_append_of_le_length (by omega)
  refine ⟨rfl, ?_, ?_, ?_⟩
  · rw [hperf, htake]
    intro hmem
    exact (earlySteps_shape n rc _ (List.take_subset _ _ hmem)).2.1 rfl
  · intro p
    rw [hperf, htake]
    intro hmem
    exact (earlySteps_shape n rc _ (List.take_subset _ _ hmem)).2.2 p rfl
  · intro inp cfg hv hcfg
    simp [mainModel, hv, hcfg, catchRun, caughtLines]

/-- Witness for C3: with 2 workers and an exception after the third step,
the message is surfaced and no display or CSV write is performed. -/
theorem worker_error_aborts_report_witness :
    (catchRun (trySteps 2 okRc) (some 3) ("Bad socket.")).caught = some ("Bad socket.")
    ∧ Step.display ∉ (catchRun (trySteps 2 okRc) (some 3) ("Bad socket.")).performed :=
  ⟨(worker_error_aborts_report 2 okRc 3 ("Bad socket.") (by decide)).1,
   (worker_error_aborts_report 2 okRc 3 ("Bad socket.") (by decide)).2.1⟩

/-- C4: once the checks preceding it pass, the validation chain rejects with
the capacity diagnostic exactly when the requested query count exceeds
2^(32 - prefix), the number of host addresses under the prefix; the sample
input with subnet 192.0.2.0/24 and exactly 256 requests (the full capacity)
is accepted. -/
theorem capacity_check_iff (inp : Input) (h : reachesCapacityCheck inp) :
    ((validate inp = .err .tooManyReq) ↔ inp.numReq > 2 ^ (32 - inp.netmask))
    ∧ validate goodInput = .ok goodCfg
    ∧ goodInput.numReq = 2 ^ (32 - goodInput.netmask) := by
  obtain ⟨h1, h2, h3, h4, h5, h6⟩ := h
  have h5x : ¬ inp.netmask > 32 := by omega
  refine ⟨?_, by rfl, by decide⟩
  unfold validate
  rw [if_neg h1]
  simp only [h2, h3, h4, h6, Bool.not_true, Bool.false_eq_true, if_false]
  rw [if_neg h5x]
  by_cases hq : inp.numReq > 2 ^ (32 - inp.netmask)
  · simp [hq]
  · rw [if_neg hq]
    constructor
    · intro hv
      exfalso
      split_ifs at hv <;> simp_all
    · intro hq2
      exact absurd hq2 hq

/-- Witness for C4: for the /24 sample input with 256 requests the capacity
rejection is equivalent to 256 exceeding 2^8 (it does not), and the input
is accepted. -/
theorem capacity_check_iff_witness :
    ((validate goodInput = .err .tooManyReq) ↔
      goodInput.numReq > 2 ^ (32 - goodInput.netmask))
    ∧ validate goodInput = .ok goodCfg :=
  ⟨(capacity_check_iff goodInput (by decide)).1,
   (capacity_check_iff goodInput (by decide)).2.1⟩

set_option maxRecDepth 4000 in
/-- Counterexample for C5: on overflowInput (65536 threads, burst size
65537, 65536 requests) the uint32 product wraps to 65536, the sanity check
passes, and validation accepts the configuration although the mathematical
product 65536 * 65537 does not divide the request count. -/
theorem divisibility_gate_counterexample :
    validate overflowInput = .ok overflowCfg
    ∧ ¬ (overflowInput.numThread * overflowInput.numBurst ∣ overflowInput.numReq) :=
  ⟨by rfl, by decide⟩

/-- C5 (amended): the run proceeds past validation only if the request
count is divisible by the divisor the code actually computes, the uint32
product thread count * burst size reduced modulo 2^32 (equal to the
mathematical product whenever that fits in 32 bits); whenever that divisor
is nonzero and does not divide the request count, validation stops with the
divisibility diagnostic and main returns -1 with no worker constructed. -/
theorem divisibility_gate (inp : Input) (rc : Nat → Int) (failAt : Option Nat)
    (excMsg : String) :
    (∀ cfg, validate inp = .ok cfg → sanityDivisor inp ∣ inp.numReq)
    ∧ (inp.numThread * inp.numBurst < 2 ^ 32 →
        sanityDivisor inp = inp.numThread * inp.numBurst)
    ∧ (reachesSanityCheck inp → sanityDivisor inp ≠ 0 →
        ¬ (sanityDivisor inp ∣ inp.numReq) →
        validate inp = .err .notDivisible
        ∧ mainModel inp rc failAt excMsg =
            some { stderrLines := [ValError.msg .notDivisible], exitCode := -1
                   workersConstructed := 0, steps := [] }) := by
  refine ⟨?_, ?_, ?_⟩
  · intro cfg hv
    rw [Nat.dvd_iff_mod_eq_zero]
    unfold validate at hv
    by_cases g1 : inp.argc < 10
    · rw [if_pos g1] at hv; exact ValResult.noConfusion hv
    rw [if_neg g1] at hv
    by_cases g2 : (!inp.serverOk) = true
    · rw [if_pos g2] at hv; exact ValResult.noConfusion hv
    rw [if_neg g2] at hv
    by_cases g3 : (!inp.portOk) = true
    · rw [if_pos g3] at hv; exact ValResult.noConfusion hv
    rw [if_neg g3] at hv
    by_cases g4 : (!inp.subnetOk) = true
    · rw [if_pos g4] at hv; exact ValResult.noConfusion hv
    rw [if_neg g4] at hv
    by_cases g5 : inp.netmask > 32
    · rw [if_pos g5] at hv; exact ValResult.noConfusion hv
    rw [if_neg g5] at hv
    by_cases g6 : (!inp.numReqOk) = true
    · rw [if_pos g6] at hv; exact ValResult.noConfusion hv
    rw [if_neg g6] at hv
    by_cases g7 : inp.numReq > 2 ^ (32 - inp.netmask)
    · rw [if_pos g7] at hv; exact ValResult.noConfusion hv
    rw [if_neg g7] at hv
    by_cases g8 : (!inp.numBurstOk) = true
    · rw [if_pos g8] at hv; exact ValResult.noConfusion hv
    rw [if_neg g8] at hv
    by_cases g9 : (!inp.numThreadOk) = true
    · rw [if_pos g9] at hv; exact ValResult.noConfusion hv
    rw [if_neg g9] at hv
    by_cases g10 : sanityDivisor inp = 0
    · rw [if_pos g10] at hv; exact ValResult.noConfusion hv
    rw [if_neg g10] at hv
    by_cases g11 : inp.numReq % sanityDivisor inp ≠ 0
    · rw [if_pos g11] at hv; exact ValResult.noConfusion hv
    exact of_not_not g11
  · intro h
    unfold sanityDivisor
    exact Nat.mod_eq_of_lt h
  · intro hr hd0 hdvd
    obtain ⟨⟨h1, h2, h3, h4, h5, h6⟩, h7, h8, h9⟩ := hr
    have h5x : ¬ inp.netmask > 32 := by omega
    have h7x : ¬ inp.numReq > 2 ^ (32 - inp.netmask) := by omega
    have hmod : inp.numReq % sanityDivisor inp ≠ 0 := fun h0 =>
      hdvd (Nat.dvd_iff_mod_eq_zero.mpr h0)
    have hv : validate inp = .err .notDivisible := by
      unfold validate
      rw [if_neg h1]
      simp only [h2, h3, h4, h6, h8, h9, Bool.not_true, Bool.false_eq_true, if_false]
      rw [if_neg h5x, if_neg h7x, if_neg hd0, if_pos hmod]
    exact ⟨hv, by simp [mainModel, hv]⟩

/-- Witness for C5: 5 requests with 2 threads and burst size 4 (divisor 8)
are rejected with the divisibility diagnostic before any worker exists. -/
theorem divisibility_gate_witness :
    validate badDivInput = .err .notDivisible
    ∧ mainModel badDivInput okRc none ("") =
        some { stderrLines := [ValError.msg .notDivisible], exitCode := -1
               workersConstructed := 0, steps := [] } :=
  (divisibility_gate badDivInput okRc none ("")).2.2 (by decide) (by decide) (by decide)

/-- C6: the trace of the try block is exactly the spawn phase, then the
join phase containing every worker's join, then the report phase; no step
before the report phase constructs the aggregator, displays or writes, and
the report phase is precisely aggregator construction over all workers,
then the summary display, then the write to "dns64perf.csv". -/
theorem aggregation_after_joins (n : Nat) (rc : Nat → Int) (i : Nat) (hi : i < n) :
    trySteps n rc = (spawnPhase n rc ++ joinPhase n) ++ reportPhase n
    ∧ Step.join i ∈ joinPhase n
    ∧ (∀ s ∈ spawnPhase n rc ++ joinPhase n,
        (∀ w, s ≠ Step.mkAggregator w) ∧ s ≠ Step.display ∧ ∀ p, s ≠ Step.writeCsv p)
    ∧ reportPhase n =
        [Step.mkAggregator (List.range n), Step.display, Step.writeCsv ("dns64perf.csv")] := by
  exact ⟨rfl, mem_joinPhase n i hi, fun s hs => earlySteps_shape n rc s hs, rfl⟩

/-- Witness for C6: with 2 workers, worker 1's join is in the join phase and
the report phase aggregates both workers, displays, then writes the CSV. -/
theorem aggregation_after_joins_witness :
    Step.join 1 ∈ joinPhase 2
    ∧ reportPhase 2 =
        [Step.mkAggregator (List.range 2), Step.display, Step.writeCsv ("dns64perf.csv")] :=
  ⟨(aggregation_after_joins 2 okRc 1 (by decide)).2.1,
   (aggregation_after_joins 2 okRc 1 (by decide)).2.2.2⟩

/-- C7: for every worker index and any affinity return codes, the worker's
spawn, its pin attempt and its join all occur in the trace, the worker is
among those aggregated, a failed pin only yields the error line on standard
error, and the trace is identical (up to the recorded return codes) whatever
the codes are, so pinning failure never aborts the run. -/
theorem affinity_failure_nonfatal (n : Nat) (rc rc2 : Nat → Int) (i : Nat) (hi : i < n) :
    Step.spawn i ∈ trySteps n rc
    ∧ Step.affinity i (workerCore n i) (rc i) ∈ trySteps n rc
    ∧ (rc i ≠ 0 → affinityStderr i (workerCore n i) (rc i) =
        "Error calling pthread_setaffinity_np: " ++ toString (rc i) ++ ".\n")
    ∧ Step.join i ∈ trySteps n rc
    ∧ Step.mkAggregator (List.range n) ∈ trySteps n rc
    ∧ i ∈ List.range n
    ∧ (trySteps n rc).map stripAffinity = (trySteps n rc2).map stripAffinity := by
  refine ⟨?_, ?_, ?_, ?_, ?_, List.mem_range.mpr hi, trySteps_strip n rc rc2⟩
  · exact List.mem_append.mpr (Or.inl (List.mem_append.mpr (Or.inl
      (mem_spawnPhase_spawn n rc i hi))))
  · exact List.mem_append.mpr (Or.inl (List.mem_append.mpr (Or.inl
      (mem_spawnPhase_affinity n rc i hi))))
  · intro h
    unfold affinityStderr
    rw [if_pos h]
  · exact List.mem_append.mpr (Or.inl (List.mem_append.mpr (Or.inr (mem_joinPhase n i hi))))
  · exact List.mem_append.mpr (Or.inr (by simp [reportPhase]))

/-- Witness for C7: with 2 workers all of whose pin attempts fail with code
22, worker 0 is still spawned and joined, and the failure only produces the
error line. -/
theorem affinity_failure_nonfatal_witness :
    Step.spawn 0 ∈ trySteps 2 failRc
    ∧ Step.join 0 ∈ trySteps 2 failRc
    ∧ affinityStderr 0 (workerCore 2 0) (failRc 0) =
        "Error calling pthread_setaffinity_np: " ++ toString (failRc 0) ++ ".\n" :=
  ⟨(affinity_failure_nonfatal 2 failRc okRc 0 (by decide)).1,
   (affinity_failure_nonfatal 2 failRc okRc 0 (by decide)).2.2.2.1,
   (affinity_failure_nonfatal 2 failRc okRc 0 (by decide)).2.2.1 (by decide)⟩

/-- Counterexample for C8: the thread count 2^31+1 passes validation
(burst size 1, 2^31+1 requests, a /0 subnet), and for its worker index
2^31-1 (below the thread count) the uint32 core num_thread + i wraps to
core 0, which lies in [0, thread count) - against the claim that no
worker core index lies there. -/
theorem worker_core_assignment_counterexample :
    validate bigThreadInput = .ok bigThreadCfg
    ∧ 2147483647 < 2147483649
    ∧ workerCore 2147483649 2147483647 = 0
    ∧ workerCore 2147483649 2147483647 < 2147483649 :=
  ⟨by rfl, by decide, by decide, by decide⟩

/-- C8 (amended): worker thread i is pinned (best effort) to CPU core
(numThread + i) mod 2^32, the uint32 sum, and this appears in the trace;
for a uint32 thread count, distinct workers always get distinct cores, and
whenever the sum does not wrap (numThread + i < 2^32, in particular for
every thread count up to 2^31) the core equals numThread + i and never lies
below numThread. -/
theorem worker_core_assignment (n : Nat) (rc : Nat → Int) (i j : Nat) (hi : i < n)
    (hj : j < n) (hn : n < 2 ^ 32) :
    Step.affinity i (workerCore n i) (rc i) ∈ trySteps n rc
    ∧ workerCore n i = (n + i) % 2 ^ 32
    ∧ (i ≠ j → workerCore n i ≠ workerCore n j)
    ∧ (n + i < 2 ^ 32 → workerCore n i = n + i ∧ ¬ workerCore n i < n) := by
  refine ⟨List.mem_append.mpr (Or.inl (List.mem_append.mpr (Or.inl
    (mem_spawnPhase_affinity n rc i hi)))), rfl, ?_, ?_⟩
  · intro hij
    unfold workerCore
    omega
  · intro hni
    unfold workerCore
    refine ⟨by omega, by omega⟩

/-- Witness for C8: with 4 threads, workers 1 and 3 get cores 5 and 7,
distinct, unwrapped and both at least 4. -/
theorem worker_core_assignment_witness :
    workerCore 4 1 = (4 + 1) % 2 ^ 32
    ∧ workerCore 4 1 ≠ workerCore 4 3
    ∧ workerCore 4 1 = 4 + 1
    ∧ ¬ workerCore 4 1 < 4 :=
  ⟨(worker_core_assignment 4 okRc 1 3 (by decide) (by decide) (by decide)).2.1,
   (worker_core_assignment 4 okRc 1 3 (by decide) (by decide) (by decide)).2.2.1 (by decide),
   ((worker_core_assignment 4 okRc 1 3 (by decide) (by decide) (by decide)).2.2.2 (by decide)).1,
   ((worker_core_assignment 4 okRc 1 3 (by decide) (by decide) (by decide)).2.2.2 (by decide)).2⟩

/-- C9: if an input reaches the sanity check and its thread count or burst
size parsed to 0, the check's uint32 divisor is 0, so the code performs a
modulo by zero (undefined behaviour) instead of reaching any rejection
branch; the model maps such an execution to the undefined outcome. -/
theorem zero_burst_or_thread_mod_zero (inp : Input) (hr : reachesSanityCheck inp)
    (hz : inp.numThread = 0 ∨ inp.numBurst = 0) (rc : Nat → Int) (failAt : Option Nat)
    (excMsg : String) :
    sanityDivisor inp = 0
    ∧ validate inp = .undef
    ∧ mainModel inp rc failAt excMsg = none := by
  obtain ⟨⟨h1, h2, h3, h4, h5, h6⟩, h7, h8, h9⟩ := hr
  have h5x : ¬ inp.netmask > 32 := by omega
  have h7x : ¬ inp.numReq > 2 ^ (32 - inp.netmask) := by omega
  have hd : sanityDivisor inp = 0 := by
    unfold sanityDivisor
    rcases hz with h | h <;> simp [h]
  have hv : validate inp = .undef := by
    unfold validate
    rw [if_neg h1]
    simp only [h2, h3, h4, h6, h8, h9, Bool.not_true, Bool.false_eq_true, if_false]
    rw [if_neg h5x, if_neg h7x, if_pos hd]
  exact ⟨hd, hv, by simp [mainModel, hv]⟩

/-- Witness for C9: a burst size parsed as 0 makes the sanity check divide
by zero. -/
theorem zero_burst_or_thread_mod_zero_witness :
    sanityDivisor zeroBurstInput = 0
    ∧ validate zeroBurstInput = .undef
    ∧ mainModel zeroBurstInput okRc none ("") = none :=
  zero_burst_or_thread_mod_zero zeroBurstInput (by decide) (Or.inr (by rfl)) okRc none ("")

/-- C10: for bytes a.b.c.d and prefix length p <= 32, the stored subnet base
is the 32-bit word (a<<24 | b<<16 | c<<8 | d) with its low (32 - p) host
bits cleared by the mask, so nonzero host bits are silently zeroed; for
p = 0 the base becomes 0. -/
theorem subnet_base_masking (t0 t1 t2 t3 p : Nat) (h0 : t0 < 256) (h1 : t1 < 256)
    (h2 : t2 < 256) (h3 : t3 < 256) (hp : p ≤ 32) :
    subnetBase t0 t1 t2 t3 p = subnetWord t0 t1 t2 t3 / 2 ^ (32 - p) * 2 ^ (32 - p)
    ∧ (p = 0 → subnetBase t0 t1 t2 t3 p = 0) := by
  have hw : subnetWord t0 t1 t2 t3 < 2 ^ 32 := subnetWord_lt t0 t1 t2 t3 h0 h1 h2 h3
  have hmask := land_mask_clears_low (subnetWord t0 t1 t2 t3) (32 - p) hw (by omega)
  have hle : subnetWord t0 t1 t2 t3 / 2 ^ (32 - p) * 2 ^ (32 - p) < 2 ^ 32 :=
    lt_of_le_of_lt (Nat.div_mul_le_self _ _) hw
  have hbase : subnetBase t0 t1 t2 t3 p =
      subnetWord t0 t1 t2 t3 / 2 ^ (32 - p) * 2 ^ (32 - p) := by
    unfold subnetBase
    rw [hmask, Nat.mod_eq_of_lt hle]
  refine ⟨hbase, ?_⟩
  intro hp0
  subst hp0
  rw [hbase]
  have hzero : subnetWord t0 t1 t2 t3 / 2 ^ (32 - 0) = 0 :=
    Nat.div_eq_of_lt (by simpa using hw)
  rw [hzero, Nat.zero_mul]

/-- Witness for C10: 192.0.2.255/24 keeps the top 24 bits and zeroes the
255 in the host byte. -/
theorem subnet_base_masking_witness :
    subnetBase 192 0 2 255 24 =
      subnetWord 192 0 2 255 / 2 ^ (32 - 24) * 2 ^ (32 - 24) :=
  (subnet_base_masking 192 0 2 255 24 (by decide) (by decide) (by decide) (by decide)
    (by decide)).1
